import Mathlib

/-!
Verification development for the `spatial-memer` pose-tracking and
BEV-map-layout engine.  The definitions below are shallow embeddings of
the Python sources: `src/transforms.py` (rigid-transform library) and
`src/spatial_context.py` (pose store, layout engine, placement engine,
watermarker).  Python/NumPy floats are modelled as real numbers; NumPy
NaN propagation, where a claim depends on it, is modelled with
`Option ℝ`.  The pose store never inspects the stored pose values, so it
is embedded polymorphically in the pose type.
-/

open Classical

/-- Error kinds raised by the Python code (all `ValueError`s, classified
by their messages as in the specification: invalid-transform errors from
`transforms.py`, not-found errors from the pose store and watermarker,
invalid-input errors for malformed numeric input). -/
inductive Err where
  | invalidTransform
  | notFound
  | invalidInput
  deriving DecidableEq

/-- A 4×4 matrix of reals: the shallow embedding of the NumPy 4×4 float
arrays that `transforms.py` uses for SE(3) transforms.  Field `aIJ`
holds the entry at row `I`, column `J` (0-indexed). -/
@[ext] structure M4 where
  a00 : ℝ
  a01 : ℝ
  a02 : ℝ
  a03 : ℝ
  a10 : ℝ
  a11 : ℝ
  a12 : ℝ
  a13 : ℝ
  a20 : ℝ
  a21 : ℝ
  a22 : ℝ
  a23 : ℝ
  a30 : ℝ
  a31 : ℝ
  a32 : ℝ
  a33 : ℝ

/-- Matrix product of two 4×4 matrices (the `@` operator in
`spatial_context.py` / `transforms.py`), written out entrywise. -/
def mul4 (A B : M4) : M4 where
  a00 := A.a00 * B.a00 + A.a01 * B.a10 + A.a02 * B.a20 + A.a03 * B.a30
  a01 := A.a00 * B.a01 + A.a01 * B.a11 + A.a02 * B.a21 + A.a03 * B.a31
  a02 := A.a00 * B.a02 + A.a01 * B.a12 + A.a02 * B.a22 + A.a03 * B.a32
  a03 := A.a00 * B.a03 + A.a01 * B.a13 + A.a02 * B.a23 + A.a03 * B.a33
  a10 := A.a10 * B.a00 + A.a11 * B.a10 + A.a12 * B.a20 + A.a13 * B.a30
  a11 := A.a10 * B.a01 + A.a11 * B.a11 + A.a12 * B.a21 + A.a13 * B.a31
  a12 := A.a10 * B.a02 + A.a11 * B.a12 + A.a12 * B.a22 + A.a13 * B.a32
  a13 := A.a10 * B.a03 + A.a11 * B.a13 + A.a12 * B.a23 + A.a13 * B.a33
  a20 := A.a20 * B.a00 + A.a21 * B.a10 + A.a22 * B.a20 + A.a23 * B.a30
  a21 := A.a20 * B.a01 + A.a21 * B.a11 + A.a22 * B.a21 + A.a23 * B.a31
  a22 := A.a20 * B.a02 + A.a21 * B.a12 + A.a22 * B.a22 + A.a23 * B.a32
  a23 := A.a20 * B.a03 + A.a21 * B.a13 + A.a22 * B.a23 + A.a23 * B.a33
  a30 := A.a30 * B.a00 + A.a31 * B.a10 + A.a32 * B.a20 + A.a33 * B.a30
  a31 := A.a30 * B.a01 + A.a31 * B.a11 + A.a32 * B.a21 + A.a33 * B.a31
  a32 := A.a30 * B.a02 + A.a31 * B.a12 + A.a32 * B.a22 + A.a33 * B.a32
  a33 := A.a30 * B.a03 + A.a31 * B.a13 + A.a32 * B.a23 + A.a33 * B.a33

/-- The 4×4 identity matrix (`np.eye(4)` / `np.identity(4)`). -/
def id4 : M4 :=
  ⟨1, 0, 0, 0, 0, 1, 0, 0, 0, 0, 1, 0, 0, 0, 0, 1⟩

/-- NumPy `isclose a b` with absolute tolerance `tol` and NumPy's
default relative tolerance `1e-5`: `|a - b| ≤ tol + 1e-5 · |b|`. -/
def isclose (a b tol : ℝ) : Prop :=
  |a - b| ≤ tol + (1 / 100000) * |b|

/-- The `np.isclose(np.eye(3), t[:3,:3].T @ t[:3,:3], ...).all()` check
of `transform_is_valid`: every entry of `RᵀR` is close to the matching
identity entry.  `(RᵀR)ᵢⱼ = Σₖ Rₖᵢ Rₖⱼ` is written out entrywise. -/
def rtr_check (t : M4) (tol : ℝ) : Prop :=
  isclose 1 (t.a00 * t.a00 + t.a10 * t.a10 + t.a20 * t.a20) tol ∧
  isclose 0 (t.a00 * t.a01 + t.a10 * t.a11 + t.a20 * t.a21) tol ∧
  isclose 0 (t.a00 * t.a02 + t.a10 * t.a12 + t.a20 * t.a22) tol ∧
  isclose 0 (t.a01 * t.a00 + t.a11 * t.a10 + t.a21 * t.a20) tol ∧
  isclose 1 (t.a01 * t.a01 + t.a11 * t.a11 + t.a21 * t.a21) tol ∧
  isclose 0 (t.a01 * t.a02 + t.a11 * t.a12 + t.a21 * t.a22) tol ∧
  isclose 0 (t.a02 * t.a00 + t.a12 * t.a10 + t.a22 * t.a20) tol ∧
  isclose 0 (t.a02 * t.a01 + t.a12 * t.a11 + t.a22 * t.a21) tol ∧
  isclose 1 (t.a02 * t.a02 + t.a12 * t.a12 + t.a22 * t.a22) tol

/-- The `np.isclose(np.eye(3), t[:3,:3] @ t[:3,:3].T, ...).all()` check
of `transform_is_valid`: `(RRᵀ)ᵢⱼ = Σₖ Rᵢₖ Rⱼₖ` close to identity. -/
def rrt_check (t : M4) (tol : ℝ) : Prop :=
  isclose 1 (t.a00 * t.a00 + t.a01 * t.a01 + t.a02 * t.a02) tol ∧
  isclose 0 (t.a00 * t.a10 + t.a01 * t.a11 + t.a02 * t.a12) tol ∧
  isclose 0 (t.a00 * t.a20 + t.a01 * t.a21 + t.a02 * t.a22) tol ∧
  isclose 0 (t.a10 * t.a00 + t.a11 * t.a01 + t.a12 * t.a02) tol ∧
  isclose 1 (t.a10 * t.a10 + t.a11 * t.a11 + t.a12 * t.a12) tol ∧
  isclose 0 (t.a10 * t.a20 + t.a11 * t.a21 + t.a12 * t.a22) tol ∧
  isclose 0 (t.a20 * t.a00 + t.a21 * t.a01 + t.a22 * t.a02) tol ∧
  isclose 0 (t.a20 * t.a10 + t.a21 * t.a11 + t.a22 * t.a12) tol ∧
  isclose 1 (t.a20 * t.a20 + t.a21 * t.a21 + t.a22 * t.a22) tol

/-- Determinant of the top-left 3×3 block (`np.linalg.det(t[:3,:3])`). -/
def det3 (t : M4) : ℝ :=
  t.a00 * (t.a11 * t.a22 - t.a12 * t.a21) -
  t.a01 * (t.a10 * t.a22 - t.a12 * t.a20) +
  t.a02 * (t.a10 * t.a21 - t.a11 * t.a20)

/-- `np.isclose(np.linalg.det(t[:3,:3]), 1.0, ...)`. -/
def det_check (t : M4) (tol : ℝ) : Prop :=
  isclose (det3 t) 1 tol

/-- `np.isclose(t[3,:3], zeros, ...).all() and np.isclose(t[3,3], 1.0, ...)`;
the relative-tolerance term vanishes against `0`. -/
def last_row_check (t : M4) (tol : ℝ) : Prop :=
  |t.a30| ≤ tol ∧ |t.a31| ≤ tol ∧ |t.a32| ≤ tol ∧ isclose t.a33 1 tol

/-- `transform_is_valid` from `transforms.py`.  The 4×4 shape check is
enforced by the `M4` type, and the `np.isreal` check is identically true
on real-valued float arrays, so both are omitted from the embedding. -/
def transform_is_valid (t : M4) (tol : ℝ) : Prop :=
  rtr_check t tol ∧ rrt_check t tol ∧ det_check t tol ∧ last_row_check t tol

/-- The matrix built by `transform_inverse` before any validity check:
rotation block `Rᵀ`, translation `-Rᵀp`, exact bottom row `[0,0,0,1]`
(it is assembled into `np.identity(4)`). -/
def inv4 (t : M4) : M4 where
  a00 := t.a00
  a01 := t.a10
  a02 := t.a20
  a03 := -(t.a00 * t.a03 + t.a10 * t.a13 + t.a20 * t.a23)
  a10 := t.a01
  a11 := t.a11
  a12 := t.a21
  a13 := -(t.a01 * t.a03 + t.a11 * t.a13 + t.a21 * t.a23)
  a20 := t.a02
  a21 := t.a12
  a22 := t.a22
  a23 := -(t.a02 * t.a03 + t.a12 * t.a13 + t.a22 * t.a23)
  a30 := 0
  a31 := 0
  a32 := 0
  a33 := 1

/-- `transform_inverse` from `transforms.py`: raises (returns an error)
when the input fails `transform_is_valid` at the default tolerance
`1e-3`, otherwise returns a fresh matrix `[Rᵀ, -Rᵀp; 0 0 0 1]`. -/
noncomputable def transform_inverse (t : M4) : Except Err M4 :=
  if transform_is_valid t (1 / 1000) then .ok (inv4 t) else .error .invalidTransform

/-- `compute_relative_pose` from `transforms.py`: validates both
arguments (raising on the first invalid one), then returns
`transform_inverse a @ b`. -/
noncomputable def compute_relative_pose (a b : M4) : Except Err M4 :=
  if ¬ transform_is_valid a (1 / 1000) then .error .invalidTransform
  else if ¬ transform_is_valid b (1 / 1000) then .error .invalidTransform
  else
    match transform_inverse a with
    | .ok ai => .ok (mul4 ai b)
    | .error e => .error e

/-- `extract_displacement` from `transforms.py`: validates the input and
returns the translation column `(x, y, z)`. -/
noncomputable def extract_displacement (t : M4) : Except Err (ℝ × ℝ × ℝ) :=
  if transform_is_valid t (1 / 1000) then .ok (t.a03, t.a13, t.a23)
  else .error .invalidTransform

/-- Two 4×4 matrices agree entrywise within an absolute tolerance: the
formal reading of the specification phrase "equals ... within
tolerance". -/
def matNear (A B : M4) (tol : ℝ) : Prop :=
  |A.a00 - B.a00| ≤ tol ∧ |A.a01 - B.a01| ≤ tol ∧
  |A.a02 - B.a02| ≤ tol ∧ |A.a03 - B.a03| ≤ tol ∧
  |A.a10 - B.a10| ≤ tol ∧ |A.a11 - B.a11| ≤ tol ∧
  |A.a12 - B.a12| ≤ tol ∧ |A.a13 - B.a13| ≤ tol ∧
  |A.a20 - B.a20| ≤ tol ∧ |A.a21 - B.a21| ≤ tol ∧
  |A.a22 - B.a22| ≤ tol ∧ |A.a23 - B.a23| ≤ tol ∧
  |A.a30 - B.a30| ≤ tol ∧ |A.a31 - B.a31| ≤ tol ∧
  |A.a32 - B.a32| ≤ tol ∧ |A.a33 - B.a33| ≤ tol

/-- NaN-propagating multiplication on NumPy floats: `none` stands for a
non-finite value (NaN). -/
def fmul : Option ℝ → Option ℝ → Option ℝ
  | some a, some b => some (a * b)
  | _, _ => none

/-- NaN-propagating addition. -/
def fadd : Option ℝ → Option ℝ → Option ℝ
  | some a, some b => some (a + b)
  | _, _ => none

/-- NaN-propagating subtraction. -/
def fsub : Option ℝ → Option ℝ → Option ℝ
  | some a, some b => some (a - b)
  | _, _ => none

/-- NaN-propagating division: dividing by zero yields a non-finite value
(`0/0` is NaN; in `quaternion_to_rotation_matrix` only the `0/0` case can
arise, since the numerators vanish whenever the norm does). -/
noncomputable def fdiv : Option ℝ → Option ℝ → Option ℝ
  | some a, some b => if b = 0 then none else some (a / b)
  | _, _ => none

/-- A 3×3 rotation matrix of NumPy floats that may hold NaN entries. -/
structure Rot3F where
  r00 : Option ℝ
  r01 : Option ℝ
  r02 : Option ℝ
  r10 : Option ℝ
  r11 : Option ℝ
  r12 : Option ℝ
  r20 : Option ℝ
  r21 : Option ℝ
  r22 : Option ℝ

/-- `quaternion_to_rotation_matrix` from `transforms.py`: normalizes the
quaternion by its Euclidean norm, then assembles the rotation matrix.
The function performs no zero-norm check and raises nothing; NumPy float
division is modelled by `fdiv` so that a zero norm produces NaN
entries. -/
noncomputable def quaternion_to_rotation_matrix (qx qy qz qw : ℝ) : Rot3F :=
  let norm : Option ℝ := some (Real.sqrt (qx * qx + qy * qy + qz * qz + qw * qw))
  let x := fdiv (some qx) norm
  let y := fdiv (some qy) norm
  let z := fdiv (some qz) norm
  let w := fdiv (some qw) norm
  { r00 := fsub (some 1) (fmul (some 2) (fadd (fmul y y) (fmul z z)))
    r01 := fmul (some 2) (fsub (fmul x y) (fmul z w))
    r02 := fmul (some 2) (fadd (fmul x z) (fmul y w))
    r10 := fmul (some 2) (fadd (fmul x y) (fmul z w))
    r11 := fsub (some 1) (fmul (some 2) (fadd (fmul x x) (fmul z z)))
    r12 := fmul (some 2) (fsub (fmul y z) (fmul x w))
    r20 := fmul (some 2) (fsub (fmul x z) (fmul y w))
    r21 := fmul (some 2) (fadd (fmul y z) (fmul x w))
    r22 := fsub (some 1) (fmul (some 2) (fadd (fmul x x) (fmul y y))) }

/-- The pose store state of a `SpatialContext` (`spatial_context.py`).
Python dicts preserve insertion order, so both pose dicts are embedded
as association lists in insertion order.  The store never inspects the
stored pose values, so the pose type is a parameter. -/
structure SpatialState (α : Type) where
  keyframe_poses : List (ℕ × α)
  all_poses : List (ℕ × α)
  frame_count : ℕ
  deriving DecidableEq

/-- Assignment `d[k] = v` on an insertion-ordered dict: an existing key
keeps its position and gets the new value; a fresh key is appended. -/
def updateAssoc {α : Type} : List (ℕ × α) → ℕ → α → List (ℕ × α)
  | [], k, v => [(k, v)]
  | (k', v') :: rest, k, v =>
    if k' = k then (k, v) :: rest else (k', v') :: updateAssoc rest k v

/-- The freshly constructed `SpatialContext`: empty dicts, counter 0. -/
def emptyState {α : Type} : SpatialState α :=
  ⟨[], [], 0⟩

/-- `add_frame_with_pose` from `spatial_context.py`: allocates the next
identifier and stores the given pose unconditionally.  Returns the new
frame id together with the updated state. -/
def add_frame_with_pose {α : Type} (pose : α) (s : SpatialState α) : ℕ × SpatialState α :=
  (s.frame_count,
   { s with all_poses := updateAssoc s.all_poses s.frame_count pose,
            frame_count := s.frame_count + 1 })

/-- `add_frame` from `spatial_context.py`.  `fk` stands for the external
`RobotArm.forward_kinematics` collaborator (the `robot_arm` module is
not part of the repository sources; the spec lists kinematics as an
external interface), `robot_pose` is the optional base pose defaulting
to the identity.  The computed world pose
`robot_pose @ fk(robot_state)` is stored unconditionally. -/
noncomputable def add_frame {σ : Type} (fk : σ → M4) (robot_state : σ)
    (robot_pose : Option M4) (s : SpatialState M4) : ℕ × SpatialState M4 :=
  let pose := mul4 (robot_pose.getD id4) (fk robot_state)
  (s.frame_count,
   { s with all_poses := updateAssoc s.all_poses s.frame_count pose,
            frame_count := s.frame_count + 1 })

/-- `promote_to_keyframe` from `spatial_context.py`: raises `NotFound`
(`ValueError: Frame ... not found`) for an unallocated id, otherwise
copies the currently stored pose into the keyframe dict. -/
def promote_to_keyframe {α : Type} (frame_id : ℕ) (s : SpatialState α) :
    Except Err (SpatialState α) :=
  match s.all_poses.lookup frame_id with
  | none => .error .notFound
  | some p => .ok { s with keyframe_poses := updateAssoc s.keyframe_poses frame_id p }

/-- `remove_keyframe` from `spatial_context.py`: `dict.pop(fid, None)`,
a no-op when absent, keeping the order of the remaining entries. -/
def remove_keyframe {α : Type} (frame_id : ℕ) (s : SpatialState α) : SpatialState α :=
  { s with keyframe_poses := s.keyframe_poses.filter (fun kv => kv.1 != frame_id) }

/-- `get_current_pose` from `spatial_context.py`: the pose of the
largest allocated id, or the identity (`ident`) when no frame exists.
The lookup of the maximal key cannot miss, so `getD ident` is exact. -/
def get_current_pose {α : Type} (ident : α) (s : SpatialState α) : α :=
  if s.all_poses.isEmpty then ident
  else
    let latest := (s.all_poses.map Prod.fst).foldl max 0
    (s.all_poses.lookup latest).getD ident

/-- `MapConfig` from `spatial_context.py`. -/
structure MapConfig where
  image_size : ℤ
  border_size : ℤ
  outlier_std_threshold : ℝ
  keyframe_radius : ℤ
  robot_radius : ℤ
  circle_border_size : ℤ
  font_scale : ℝ

/-- `DEFAULT_MAP_CONFIG` from `spatial_context.py`. -/
noncomputable def DEFAULT_MAP_CONFIG : MapConfig :=
  ⟨512, 4, 2, 16, 18, 1, 6 / 10⟩

/-- `watermark_keyframes` from `spatial_context.py`, with the 0-based
`enumerate` index made explicit.  The cv2 drawing on the copy of each
image (filled square, border, bold 1-indexed label) is modelled by the
abstract `draw` collaborator applied to the index, the looked-up color
and the original image; `keyframe.copy()` makes the operation pure, so
the caller's images are untouched.  A missing color raises `NotFound`
(`ValueError: Color for frame_id ... was not found`), so the call
produces no output at all. -/
def watermark_go {Img Color : Type} (draw : ℕ → Color → Img → Img)
    (colors : List (ℕ × Color)) : ℕ → List (ℕ × Img) → Except Err (List Img)
  | _, [] => .ok []
  | idx, (fid, img) :: rest =>
    match colors.lookup fid with
    | none => .error .notFound
    | some c =>
      match watermark_go draw colors (idx + 1) rest with
      | .ok out => .ok (draw idx c img :: out)
      | .error e => .error e

/-- Entry point of the watermarker: start at `enumerate` index 0. -/
def watermark_keyframes {Img Color : Type} (draw : ℕ → Color → Img → Img)
    (keyframes : List (ℕ × Img)) (colors : List (ℕ × Color)) : Except Err (List Img) :=
  watermark_go draw colors 0 keyframes

/-- The saturated base palette of `_get_keyframe_color` (BGR). -/
def base_colors : List (ℤ × ℤ × ℤ) :=
  [(25, 25, 230), (60, 180, 75), (200, 130, 0), (48, 130, 245),
   (180, 30, 145), (240, 240, 70), (230, 50, 240), (60, 245, 210)]

/-- Whitewashing of one channel: `int(c + (255 - c) * 0.45)`; the float
literal `0.45` is modelled exactly as `9/20` and the values are
nonnegative, so Python `int` truncation is the floor. -/
def whitewash (c : ℤ) : ℤ :=
  ⌊(c : ℚ) + (255 - (c : ℚ)) * (9 / 20)⌋

/-- `_get_keyframe_color` from `spatial_context.py`: cycles through the
8-color palette by index and whitewashes each channel. -/
def get_keyframe_color (index : ℕ) : ℤ × ℤ × ℤ :=
  let bgr := base_colors.getD (index % base_colors.length) (0, 0, 0)
  (whitewash bgr.1, whitewash bgr.2.1, whitewash bgr.2.2)

/-- The id→color dict built by `generate_map` (`colors[frame_id] =
self._get_keyframe_color(i)` over the enumerated keyframe ids). -/
def map_colors_go : ℕ → List ℕ → List (ℕ × (ℤ × ℤ × ℤ))
  | _, [] => []
  | i, fid :: rest => (fid, get_keyframe_color i) :: map_colors_go (i + 1) rest

/-- Colors assigned by `generate_map`, keyed by keyframe id, in
keyframe-dict insertion order. -/
def map_colors {α : Type} (s : SpatialState α) : List (ℕ × (ℤ × ℤ × ℤ)) :=
  map_colors_go 0 (s.keyframe_poses.map Prod.fst)

/-- The 1-indexed text labels `str(i + 1)` drawn by `generate_map`,
keyed by keyframe id, in keyframe-dict insertion order. -/
def map_labels {α : Type} (s : SpatialState α) : List (ℕ × ℕ) :=
  (s.keyframe_poses.map Prod.fst).enum.map (fun p => (p.2, p.1 + 1))

/-- Python `max` over a list known to be non-empty (on `[]` the embedding
returns 0 where Python would raise; every call site guards emptiness). -/
def pymax : List ℝ → ℝ
  | [] => 0
  | x :: xs => xs.foldl max x

/-- `np.mean`: arithmetic mean. -/
noncomputable def npmean (l : List ℝ) : ℝ :=
  l.sum / l.length

/-- `np.std`: population standard deviation,
`sqrt(mean((d - mean)²))`. -/
noncomputable def npstd (l : List ℝ) : ℝ :=
  Real.sqrt (((l.map fun d => (d - npmean l) ^ 2).sum) / l.length)

/-- `_compute_scale` from `spatial_context.py` (the only call sites use
the default `margin = 10`, which is inlined): pixels per meter so that
`max_dist` fits in the usable canvas radius, or the default 50 px/m for
a degenerate distance below `1e-6`. -/
noncomputable def compute_scale (cfg : MapConfig) (max_dist : ℝ) : ℝ :=
  let canvas_size : ℝ := (cfg.image_size : ℝ) - 2 * (cfg.border_size : ℝ)
  let usable_radius : ℝ := canvas_size / 2 - 10
  if max_dist < 1 / 1000000 then 50 else usable_radius / max_dist

/-- The per-keyframe position loop of `_compute_map_layout`
(`spatial_context.py` lines 200–205): relative pose to the current pose,
then the (x, y) displacement.  The first invalid pose raises. -/
noncomputable def positionsOf (cur : M4) : List (ℕ × M4) → Except Err (List (ℕ × ℝ × ℝ))
  | [] => .ok []
  | (fid, pose) :: rest =>
    match compute_relative_pose cur pose with
    | .error e => .error e
    | .ok rel =>
      match extract_displacement rel with
      | .error e => .error e
      | .ok (x, y, _) =>
        match positionsOf cur rest with
        | .error e => .error e
        | .ok ps => .ok ((fid, x, y) :: ps)

/-- The distances dict of `_compute_map_layout` (`spatial_context.py`
line 211): Euclidean distance `dᵢ = sqrt(xᵢ² + yᵢ²)` keyed by id. -/
noncomputable def distancesOf (positions : List (ℕ × ℝ × ℝ)) : List (ℕ × ℝ) :=
  positions.map fun p => (p.1, Real.sqrt (p.2.1 ^ 2 + p.2.2 ^ 2))

/-- The outlier threshold of `_compute_map_layout` (line 230):
`μ + k·σ` with `k` the configured outlier-rejection strength. -/
noncomputable def layout_threshold (cfg : MapConfig) (positions : List (ℕ × ℝ × ℝ)) : ℝ :=
  npmean ((distancesOf positions).map Prod.snd) +
    cfg.outlier_std_threshold * npstd ((distancesOf positions).map Prod.snd)

/-- The outlier ids of `_compute_map_layout` (line 233): exactly the
ids whose distance strictly exceeds the threshold. -/
noncomputable def layout_outliers (cfg : MapConfig) (positions : List (ℕ × ℝ × ℝ)) :
    List ℕ :=
  ((distancesOf positions).filter fun fd =>
    decide (layout_threshold cfg positions < fd.2)).map Prod.fst

/-- The inlier distances of `_compute_map_layout` (line 236): distances
of the ids not classified as outliers. -/
noncomputable def layout_inlier_dists (cfg : MapConfig) (positions : List (ℕ × ℝ × ℝ)) :
    List ℝ :=
  ((distancesOf positions).filter fun fd =>
    decide (fd.1 ∉ layout_outliers cfg positions)).map Prod.snd

/-- The statistics part of `_compute_map_layout` (`spatial_context.py`
lines 207–241): distances, the 5-sample outlier gate, mean/std, the
`μ + k·σ` threshold, the outlier set and the inlier-based scale. -/
noncomputable def map_layout_stats (cfg : MapConfig) (positions : List (ℕ × ℝ × ℝ)) :
    List (ℕ × ℝ × ℝ) × ℝ × List ℕ :=
  if positions = [] then ([], 50, []) else
  let dist_values : List ℝ := (distancesOf positions).map Prod.snd
  if dist_values.length < 5 then
    (positions, compute_scale cfg (if dist_values = [] then 1 else pymax dist_values), [])
  else
    if npstd dist_values < 1 / 1000000 then
      (positions, compute_scale cfg (pymax dist_values), [])
    else
      let inlier_distances := layout_inlier_dists cfg positions
      let max_inlier_dist :=
        if inlier_distances = [] then pymax dist_values else pymax inlier_distances
      (positions, compute_scale cfg max_inlier_dist, layout_outliers cfg positions)

/-- `_compute_map_layout` from `spatial_context.py`: positions of all
keyframes relative to the current pose, then scale and outliers. -/
noncomputable def compute_map_layout (cfg : MapConfig) (cur : M4) (kfs : List (ℕ × M4)) :
    Except Err (List (ℕ × ℝ × ℝ) × ℝ × List ℕ) :=
  match positionsOf cur kfs with
  | .error e => .error e
  | .ok ps => .ok (map_layout_stats cfg ps)

/-- Python `int()` on a float: truncation toward zero. -/
noncomputable def pytrunc (r : ℝ) : ℤ :=
  if 0 ≤ r then ⌊r⌋ else ⌈r⌉

/-- `np.clip(v, lo, hi)` on integers. -/
def clip (v lo hi : ℤ) : ℤ :=
  min (max v lo) hi

/-- The `has_collision` closure of `_resolve_overlap`
(`spatial_context.py`): "touching is a collision" — the candidate circle
of radius `radius` at `(x, y)` collides with a placed circle when the
center distance is strictly below the sum of the radii. -/
def has_collision (x y : ℤ) (placed : List (ℤ × ℤ × ℤ)) (radius : ℤ) : Prop :=
  ∃ c ∈ placed,
    Real.sqrt (((x - c.1 : ℤ) : ℝ) ^ 2 + ((y - c.2.1 : ℤ) : ℝ) ^ 2) < ((radius + c.2.2 : ℤ) : ℝ)

/-- The candidate sequence of the spiral search of `_resolve_overlap`,
in search order: rings `1 ≤ ring ≤ 9` (`range(1, 10)`), ring radius
`ring × radius`, `max(8, ring·8)` samples per ring at evenly spaced
angles `2πi/num`, each offset truncated to integers by Python `int`. -/
noncomputable def spiral_points (px py radius : ℤ) : List (ℤ × ℤ) :=
  (List.range' 1 9).flatMap fun ring =>
    (List.range (max 8 (ring * 8))).map fun (i : ℕ) =>
      let dist : ℝ := ((ring : ℤ) * radius : ℤ)
      let num : ℕ := max 8 (ring * 8)
      let angle : ℝ := 2 * Real.pi * (i : ℝ) / (num : ℝ)
      (px + pytrunc (dist * Real.cos angle), py + pytrunc (dist * Real.sin angle))

/-- `_resolve_overlap` from `spatial_context.py`: keep a collision-free
candidate; otherwise return the first collision-free spiral sample;
otherwise fall back to `3·radius` to the right, unchecked. -/
noncomputable def resolve_overlap (px py : ℤ) (placed : List (ℤ × ℤ × ℤ)) (radius : ℤ) :
    ℤ × ℤ :=
  if ¬ has_collision px py placed radius then (px, py)
  else
    match (spiral_points px py radius).find?
        (fun p => decide (¬ has_collision p.1 p.2 placed radius)) with
    | some p => p
    | none => (px + radius * 3, py)

/-- The keyframe placement loop of `generate_map` (`spatial_context.py`
lines 336–357): pixel position `center + int(coord · scale)`, clamp into
`[border+radius, size−border−radius]`, optional overlap resolution
followed by a second clamp, and accumulation into `placed_circles`.
Drawing calls are not modelled; the result is the list of final marker
centers per keyframe id, in placement order. -/
noncomputable def place_keyframes (cfg : MapConfig) (avoid : Bool) (scale : ℝ) :
    List (ℕ × ℝ × ℝ) → List (ℤ × ℤ × ℤ) → List (ℕ × ℤ × ℤ)
  | [], _ => []
  | (fid, x, y) :: rest, placed =>
    let center := cfg.image_size / 2
    let lo := cfg.border_size + cfg.keyframe_radius
    let hi := cfg.image_size - cfg.border_size - cfg.keyframe_radius
    let px0 := clip (center + pytrunc (x * scale)) lo hi
    let py0 := clip (center + pytrunc (y * scale)) lo hi
    let q :=
      if avoid then
        let r := resolve_overlap px0 py0 placed cfg.keyframe_radius
        (clip r.1 lo hi, clip r.2 lo hi)
      else (px0, py0)
    (fid, q.1, q.2) ::
      place_keyframes cfg avoid scale rest (placed ++ [(q.1, q.2, cfg.keyframe_radius)])

/-- The placement part of `generate_map` (`spatial_context.py`): current
pose, layout, then the placement loop seeded with the robot marker at
the canvas center, plus the id→color dict it returns.  Rendering of
pixels is out of scope; errors from the layout stage propagate. -/
noncomputable def generate_map_placements (cfg : MapConfig) (avoid : Bool)
    (s : SpatialState M4) : Except Err (List (ℕ × ℤ × ℤ) × List (ℕ × (ℤ × ℤ × ℤ))) :=
  let cur := get_current_pose id4 s
  match compute_map_layout cfg cur s.keyframe_poses with
  | .error e => .error e
  | .ok (positions, scale, _) =>
    let center := cfg.image_size / 2
    .ok (place_keyframes cfg avoid scale positions [(center, center, cfg.robot_radius)],
         map_colors s)

/-- The all-zero 4×4 matrix: a maximally invalid transform. -/
def zeroM4 : M4 :=
  ⟨0, 0, 0, 0, 0, 0, 0, 0, 0, 0, 0, 0, 0, 0, 0, 0⟩

/-- Example transform: identity rotation, translation `10⁹` along x, and
bottom-right entry `1.001` — inside the `1e-3` validity tolerance. -/
noncomputable def exTolA : M4 :=
  ⟨1, 0, 0, 1000000000, 0, 1, 0, 0, 0, 0, 1, 0, 0, 0, 0, 1001 / 1000⟩

/-- Example transform: rotation block `diag(2001/2000, 2000/2001, 1)` —
orthonormal within the `1e-3` validity tolerance, determinant exactly
1 — with translation `10⁹` along x. -/
noncomputable def exTolT : M4 :=
  ⟨2001 / 2000, 0, 0, 1000000000, 0, 2000 / 2001, 0, 0, 0, 0, 1, 0, 0, 0, 0, 1⟩

/-- Example transform: exact 90° rotation about z, translation (3,4,5). -/
noncomputable def exRotZ : M4 :=
  ⟨0, -1, 0, 3, 1, 0, 0, 4, 0, 0, 1, 5, 0, 0, 0, 1⟩

/-- Example transform: exact 90° rotation about x, translation (2,3,4). -/
noncomputable def exRotX : M4 :=
  ⟨1, 0, 0, 2, 0, 0, -1, 3, 0, 1, 0, 4, 0, 0, 0, 1⟩

/-- Example transform: identity rotation, translation (3,4,0). -/
noncomputable def exT34 : M4 :=
  ⟨1, 0, 0, 3, 0, 1, 0, 4, 0, 0, 1, 0, 0, 0, 0, 1⟩

/-- Example store state: frame 0 at translation (3,4,0) promoted to a
keyframe, frame 1 at the identity (so the current pose is the
identity). -/
noncomputable def exState34 : SpatialState M4 :=
  ⟨[(0, exT34)], [(0, exT34), (1, id4)], 2⟩

/-- Example positions list realizing the distances {1,1,1,1,1,100}:
five keyframes at (1,0) and one at (100,0). -/
noncomputable def exPositions6 : List (ℕ × ℝ × ℝ) :=
  [(0, 1, 0), (1, 1, 0), (2, 1, 0), (3, 1, 0), (4, 1, 0), (5, 100, 0)]

/-- `isclose` holds for equal values at any nonnegative tolerance. -/
lemma isclose_of_eq {a b tol : ℝ} (h : a = b) (h2 : 0 ≤ tol) : isclose a b tol := by
  subst h
  simp only [isclose, sub_self, abs_zero]
  positivity

/-- A transform with exactly orthonormal rotation block (columns and
rows), determinant exactly 1 and exact bottom row passes
`transform_is_valid` at every nonnegative tolerance. -/
lemma valid_of_exact (t : M4) {tol : ℝ} (htol : 0 ≤ tol)
    (hc00 : t.a00 * t.a00 + t.a10 * t.a10 + t.a20 * t.a20 = 1)
    (hc11 : t.a01 * t.a01 + t.a11 * t.a11 + t.a21 * t.a21 = 1)
    (hc22 : t.a02 * t.a02 + t.a12 * t.a12 + t.a22 * t.a22 = 1)
    (hc01 : t.a00 * t.a01 + t.a10 * t.a11 + t.a20 * t.a21 = 0)
    (hc02 : t.a00 * t.a02 + t.a10 * t.a12 + t.a20 * t.a22 = 0)
    (hc12 : t.a01 * t.a02 + t.a11 * t.a12 + t.a21 * t.a22 = 0)
    (hr00 : t.a00 * t.a00 + t.a01 * t.a01 + t.a02 * t.a02 = 1)
    (hr11 : t.a10 * t.a10 + t.a11 * t.a11 + t.a12 * t.a12 = 1)
    (hr22 : t.a20 * t.a20 + t.a21 * t.a21 + t.a22 * t.a22 = 1)
    (hr01 : t.a00 * t.a10 + t.a01 * t.a11 + t.a02 * t.a12 = 0)
    (hr02 : t.a00 * t.a20 + t.a01 * t.a21 + t.a02 * t.a22 = 0)
    (hr12 : t.a10 * t.a20 + t.a11 * t.a21 + t.a12 * t.a22 = 0)
    (hdet : det3 t = 1)
    (h30 : t.a30 = 0) (h31 : t.a31 = 0) (h32 : t.a32 = 0) (h33 : t.a33 = 1) :
    transform_is_valid t tol := by
  refine ⟨⟨?_, ?_, ?_, ?_, ?_, ?_, ?_, ?_, ?_⟩, ⟨?_, ?_, ?_, ?_, ?_, ?_, ?_, ?_, ?_⟩,
    ?_, ?_, ?_, ?_, ?_⟩
  · exact isclose_of_eq hc00.symm htol
  · exact isclose_of_eq hc01.symm htol
  · exact isclose_of_eq hc02.symm htol
  · exact isclose_of_eq (by linear_combination -hc01) htol
  · exact isclose_of_eq hc11.symm htol
  · exact isclose_of_eq hc12.symm htol
  · exact isclose_of_eq (by linear_combination -hc02) htol
  · exact isclose_of_eq (by linear_combination -hc12) htol
  · exact isclose_of_eq hc22.symm htol
  · exact isclose_of_eq hr00.symm htol
  · exact isclose_of_eq hr01.symm htol
  · exact isclose_of_eq hr02.symm htol
  · exact isclose_of_eq (by linear_combination -hr01) htol
  · exact isclose_of_eq hr11.symm htol
  · exact isclose_of_eq hr12.symm htol
  · exact isclose_of_eq (by linear_combination -hr02) htol
  · exact isclose_of_eq (by linear_combination -hr12) htol
  · exact isclose_of_eq hr22.symm htol
  · exact isclose_of_eq hdet htol
  · rw [h30, abs_zero]; exact htol
  · rw [h31, abs_zero]; exact htol
  · rw [h32, abs_zero]; exact htol
  · exact isclose_of_eq h33 htol

lemma exTolA_valid : transform_is_valid exTolA (1 / 1000) := by
  unfold transform_is_valid rtr_check rrt_check det_check last_row_check isclose det3 exTolA
  norm_num [abs_le]

lemma exTolT_valid : transform_is_valid exTolT (1 / 1000) := by
  unfold transform_is_valid rtr_check rrt_check det_check last_row_check isclose det3 exTolT
  norm_num [abs_le, abs_of_nonneg]

lemma exTolT_inv_valid : transform_is_valid (inv4 exTolT) (1 / 1000) := by
  unfold transform_is_valid rtr_check rrt_check det_check last_row_check isclose det3 inv4 exTolT
  norm_num [abs_le, abs_of_nonneg]

lemma exTolA_rel : compute_relative_pose exTolA exTolA = .ok (mul4 (inv4 exTolA) exTolA) := by
  unfold compute_relative_pose transform_inverse
  rw [if_neg (not_not_intro exTolA_valid), if_neg (not_not_intro exTolA_valid),
    if_pos exTolA_valid]

/-- C7, counterexample.  `exTolA` passes `transform_is_valid` at the
default `1e-3` tolerance, yet `compute_relative_pose exTolA exTolA` is
not within the `1e-3` tolerance of the identity: its translation `x`
entry is `-10⁶` (the bottom-row defect `1.001` of a tolerance-valid
transform is amplified by the `10⁹` translation). -/
theorem relative_pose_self_tolerance_counterexample :
    transform_is_valid exTolA (1 / 1000) ∧
    ¬ ∃ m, compute_relative_pose exTolA exTolA = .ok m ∧ matNear m id4 (1 / 1000) := by
  refine ⟨exTolA_valid, ?_⟩
  rintro ⟨m, hm, hnear⟩
  rw [exTolA_rel] at hm
  injection hm with hm
  have h3 := hnear.2.2.2.1
  rw [← hm] at h3
  simp only [mul4, inv4, exTolA, id4] at h3
  rw [abs_le] at h3
  norm_num at h3

/-- C7, amended: for every transform `a` whose rotation block is exactly
orthonormal (column and row products exact) with determinant exactly 1
and whose bottom row is exactly `[0,0,0,1]`, `relative_pose(a, a)` is
exactly the identity transform (hence also within every tolerance).  For
merely tolerance-valid transforms the deviation from the identity can
exceed any fixed tolerance, growing with the translation magnitude. -/
theorem relative_pose_self_exact (a : M4)
    (hc00 : a.a00 * a.a00 + a.a10 * a.a10 + a.a20 * a.a20 = 1)
    (hc11 : a.a01 * a.a01 + a.a11 * a.a11 + a.a21 * a.a21 = 1)
    (hc22 : a.a02 * a.a02 + a.a12 * a.a12 + a.a22 * a.a22 = 1)
    (hc01 : a.a00 * a.a01 + a.a10 * a.a11 + a.a20 * a.a21 = 0)
    (hc02 : a.a00 * a.a02 + a.a10 * a.a12 + a.a20 * a.a22 = 0)
    (hc12 : a.a01 * a.a02 + a.a11 * a.a12 + a.a21 * a.a22 = 0)
    (hr00 : a.a00 * a.a00 + a.a01 * a.a01 + a.a02 * a.a02 = 1)
    (hr11 : a.a10 * a.a10 + a.a11 * a.a11 + a.a12 * a.a12 = 1)
    (hr22 : a.a20 * a.a20 + a.a21 * a.a21 + a.a22 * a.a22 = 1)
    (hr01 : a.a00 * a.a10 + a.a01 * a.a11 + a.a02 * a.a12 = 0)
    (hr02 : a.a00 * a.a20 + a.a01 * a.a21 + a.a02 * a.a22 = 0)
    (hr12 : a.a10 * a.a20 + a.a11 * a.a21 + a.a12 * a.a22 = 0)
    (hdet : det3 a = 1)
    (h30 : a.a30 = 0) (h31 : a.a31 = 0) (h32 : a.a32 = 0) (h33 : a.a33 = 1) :
    compute_relative_pose a a = .ok id4 := by
  have hval : transform_is_valid a (1 / 1000) :=
    valid_of_exact a (by norm_num) hc00 hc11 hc22 hc01 hc02 hc12 hr00 hr11 hr22 hr01 hr02
      hr12 hdet h30 h31 h32 h33
  unfold compute_relative_pose transform_inverse
  rw [if_neg (not_not_intro hval), if_neg (not_not_intro hval), if_pos hval]
  show Except.ok (mul4 (inv4 a) a) = Except.ok id4
  congr 1
  apply M4.ext <;> simp only [mul4, inv4, id4]
  · linear_combination hc00 - (a.a00 * a.a03 + a.a10 * a.a13 + a.a20 * a.a23) * h30
  · linear_combination hc01 - (a.a00 * a.a03 + a.a10 * a.a13 + a.a20 * a.a23) * h31
  · linear_combination hc02 - (a.a00 * a.a03 + a.a10 * a.a13 + a.a20 * a.a23) * h32
  · linear_combination -(a.a00 * a.a03 + a.a10 * a.a13 + a.a20 * a.a23) * h33
  · linear_combination hc01 - (a.a01 * a.a03 + a.a11 * a.a13 + a.a21 * a.a23) * h30
  · linear_combination hc11 - (a.a01 * a.a03 + a.a11 * a.a13 + a.a21 * a.a23) * h31
  · linear_combination hc12 - (a.a01 * a.a03 + a.a11 * a.a13 + a.a21 * a.a23) * h32
  · linear_combination -(a.a01 * a.a03 + a.a11 * a.a13 + a.a21 * a.a23) * h33
  · linear_combination hc02 - (a.a02 * a.a03 + a.a12 * a.a13 + a.a22 * a.a23) * h30
  · linear_combination hc12 - (a.a02 * a.a03 + a.a12 * a.a13 + a.a22 * a.a23) * h31
  · linear_combination hc22 - (a.a02 * a.a03 + a.a12 * a.a13 + a.a22 * a.a23) * h32
  · linear_combination -(a.a02 * a.a03 + a.a12 * a.a13 + a.a22 * a.a23) * h33
  · linear_combination h30
  · linear_combination h31
  · linear_combination h32
  · linear_combination h33

/-- C7, witness: the exact 90°-z-rotation transform `exRotZ` satisfies
every hypothesis of `relative_pose_self_exact`, and its relative pose to
itself is exactly the identity. -/
theorem relative_pose_self_exact_witness :
    compute_relative_pose exRotZ exRotZ = .ok id4 :=
  relative_pose_self_exact exRotZ (by norm_num [exRotZ]) (by norm_num [exRotZ])
    (by norm_num [exRotZ]) (by norm_num [exRotZ]) (by norm_num [exRotZ])
    (by norm_num [exRotZ]) (by norm_num [exRotZ]) (by norm_num [exRotZ])
    (by norm_num [exRotZ]) (by norm_num [exRotZ]) (by norm_num [exRotZ])
    (by norm_num [exRotZ]) (by norm_num [exRotZ, det3]) (by norm_num [exRotZ])
    (by norm_num [exRotZ]) (by norm_num [exRotZ]) (by norm_num [exRotZ])

/-- C8, counterexample.  `exTolT` passes `transform_is_valid` at the
default `1e-3` tolerance, `transform_inverse` succeeds twice, yet the
double inverse differs from `exTolT` by about `10⁶` in the translation
`x` entry (the orthonormality defect `(2001/2000)²` of a tolerance-valid
rotation block is amplified by the `10⁹` translation), so
`invert(invert(T))` is not within the `1e-3` tolerance of `T`. -/
theorem invert_roundtrip_tolerance_counterexample :
    transform_is_valid exTolT (1 / 1000) ∧
    transform_inverse exTolT = .ok (inv4 exTolT) ∧
    transform_inverse (inv4 exTolT) = .ok (inv4 (inv4 exTolT)) ∧
    ¬ matNear (inv4 (inv4 exTolT)) exTolT (1 / 1000) := by
  refine ⟨exTolT_valid, ?_, ?_, ?_⟩
  · unfold transform_inverse
    rw [if_pos exTolT_valid]
  · unfold transform_inverse
    rw [if_pos exTolT_inv_valid]
  · intro h
    have h3 := h.2.2.2.1
    simp only [inv4, exTolT] at h3
    rw [abs_le] at h3
    norm_num at h3

/-- C8, amended: `invert` computes `R⁻¹ = Rᵀ` and `p⁻¹ = -Rᵀp` into a
fresh matrix (never mutating its input — the embedding is pure and
`inv4 t` shares no state with `t`), and the inverse of a valid transform
passes validity again.  For a transform whose rotation block is exactly
orthonormal with determinant exactly 1 and whose bottom row is exactly
`[0,0,0,1]`, `invert(invert(T)) = T` holds exactly (hence within every
tolerance).  For merely tolerance-valid transforms the round-trip error
can exceed any fixed tolerance, growing with the translation
magnitude. -/
theorem invert_roundtrip_exact (t : M4)
    (hc00 : t.a00 * t.a00 + t.a10 * t.a10 + t.a20 * t.a20 = 1)
    (hc11 : t.a01 * t.a01 + t.a11 * t.a11 + t.a21 * t.a21 = 1)
    (hc22 : t.a02 * t.a02 + t.a12 * t.a12 + t.a22 * t.a22 = 1)
    (hc01 : t.a00 * t.a01 + t.a10 * t.a11 + t.a20 * t.a21 = 0)
    (hc02 : t.a00 * t.a02 + t.a10 * t.a12 + t.a20 * t.a22 = 0)
    (hc12 : t.a01 * t.a02 + t.a11 * t.a12 + t.a21 * t.a22 = 0)
    (hr00 : t.a00 * t.a00 + t.a01 * t.a01 + t.a02 * t.a02 = 1)
    (hr11 : t.a10 * t.a10 + t.a11 * t.a11 + t.a12 * t.a12 = 1)
    (hr22 : t.a20 * t.a20 + t.a21 * t.a21 + t.a22 * t.a22 = 1)
    (hr01 : t.a00 * t.a10 + t.a01 * t.a11 + t.a02 * t.a12 = 0)
    (hr02 : t.a00 * t.a20 + t.a01 * t.a21 + t.a02 * t.a22 = 0)
    (hr12 : t.a10 * t.a20 + t.a11 * t.a21 + t.a12 * t.a22 = 0)
    (hdet : det3 t = 1)
    (h30 : t.a30 = 0) (h31 : t.a31 = 0) (h32 : t.a32 = 0) (h33 : t.a33 = 1) :
    transform_inverse t = .ok (inv4 t) ∧
    transform_is_valid (inv4 t) (1 / 1000) ∧
    transform_inverse (inv4 t) = .ok (inv4 (inv4 t)) ∧
    inv4 (inv4 t) = t := by
  have hval : transform_is_valid t (1 / 1000) :=
    valid_of_exact t (by norm_num) hc00 hc11 hc22 hc01 hc02 hc12 hr00 hr11 hr22 hr01 hr02
      hr12 hdet h30 h31 h32 h33
  have hdet' : det3 (inv4 t) = 1 := by
    simp only [det3, inv4]
    simp only [det3] at hdet
    linear_combination hdet
  have hvalinv : transform_is_valid (inv4 t) (1 / 1000) := by
    refine valid_of_exact (inv4 t) (by norm_num) ?_ ?_ ?_ ?_ ?_ ?_ ?_ ?_ ?_ ?_ ?_ ?_
      hdet' ?_ ?_ ?_ ?_ <;> simp only [inv4]
    · linear_combination hr00
    · linear_combination hr11
    · linear_combination hr22
    · linear_combination hr01
    · linear_combination hr02
    · linear_combination hr12
    · linear_combination hc00
    · linear_combination hc11
    · linear_combination hc22
    · linear_combination hc01
    · linear_combination hc02
    · linear_combination hc12
  refine ⟨?_, hvalinv, ?_, ?_⟩
  · unfold transform_inverse
    rw [if_pos hval]
  · unfold transform_inverse
    rw [if_pos hvalinv]
  · apply M4.ext <;> simp only [inv4]
    · linear_combination t.a03 * hr00 + t.a13 * hr01 + t.a23 * hr02
    · linear_combination t.a03 * hr01 + t.a13 * hr11 + t.a23 * hr12
    · linear_combination t.a03 * hr02 + t.a13 * hr12 + t.a23 * hr22
    · linear_combination -h30
    · linear_combination -h31
    · linear_combination -h32
    · linear_combination -h33

/-- C8, witness: the exact 90°-x-rotation transform `exRotX` satisfies
every hypothesis of `invert_roundtrip_exact`; its inverse succeeds, is
valid, and inverting twice returns `exRotX` exactly. -/
theorem invert_roundtrip_exact_witness :
    transform_inverse exRotX = .ok (inv4 exRotX) ∧
    transform_is_valid (inv4 exRotX) (1 / 1000) ∧
    transform_inverse (inv4 exRotX) = .ok (inv4 (inv4 exRotX)) ∧
    inv4 (inv4 exRotX) = exRotX :=
  invert_roundtrip_exact exRotX (by norm_num [exRotX]) (by norm_num [exRotX])
    (by norm_num [exRotX]) (by norm_num [exRotX]) (by norm_num [exRotX])
    (by norm_num [exRotX]) (by norm_num [exRotX]) (by norm_num [exRotX])
    (by norm_num [exRotX]) (by norm_num [exRotX]) (by norm_num [exRotX])
    (by norm_num [exRotX]) (by norm_num [exRotX, det3]) (by norm_num [exRotX])
    (by norm_num [exRotX]) (by norm_num [exRotX]) (by norm_num [exRotX])

/-- C5: at the degenerate zero quaternion the code divides `0/0` for
every normalized component, so `quaternion_to_rotation_matrix(0,0,0,0)`
returns a 3×3 matrix whose nine entries are all NaN (`none`), and no
error is raised (the function is total).  The specification instead
prescribes an `InvalidInput` error for a zero-norm input. -/
theorem quaternion_zero_norm_nan :
    quaternion_to_rotation_matrix 0 0 0 0 =
      ⟨none, none, none, none, none, none, none, none, none⟩ := by
  unfold quaternion_to_rotation_matrix
  norm_num [fdiv, fmul, fadd, fsub, Real.sqrt_zero]

/-- After assignment, the dict holds the assigned value. -/
lemma lookup_updateAssoc_self {α : Type} (l : List (ℕ × α)) (k : ℕ) (v : α) :
    (updateAssoc l k v).lookup k = some v := by
  induction l with
  | nil => simp [updateAssoc, List.lookup]
  | cons hd tl ih =>
    obtain ⟨k', v'⟩ := hd
    by_cases h : k' = k
    · subst h
      simp [updateAssoc, List.lookup]
    · simp only [updateAssoc, if_neg h, List.lookup]
      have hb : (k == k') = false := by simp [Ne.symm h]
      simp [hb, ih]

/-- Assigning the same value twice equals assigning it once. -/
lemma updateAssoc_idem {α : Type} (l : List (ℕ × α)) (k : ℕ) (v : α) :
    updateAssoc (updateAssoc l k v) k v = updateAssoc l k v := by
  induction l with
  | nil => simp [updateAssoc]
  | cons hd tl ih =>
    obtain ⟨k', v'⟩ := hd
    by_cases h : k' = k
    · subst h
      simp [updateAssoc]
    · simp [updateAssoc, h, ih]

/-- Re-assigning the value a key already holds leaves the dict
unchanged. -/
lemma updateAssoc_lookup_eq {α : Type} (l : List (ℕ × α)) (k : ℕ) (v : α)
    (h : l.lookup k = some v) : updateAssoc l k v = l := by
  induction l with
  | nil => simp [List.lookup] at h
  | cons hd tl ih =>
    obtain ⟨k', v'⟩ := hd
    by_cases hk : k' = k
    · subst hk
      simp [List.lookup] at h
      simp [updateAssoc, h]
    · have hb : (k == k') = false := by simp [Ne.symm hk]
      simp only [List.lookup, hb] at h
      simp [updateAssoc, hk, ih h]

/-- Assigning to a present key preserves the key order. -/
lemma updateAssoc_keys_of_mem {α : Type} (l : List (ℕ × α)) (k : ℕ) (v : α)
    (h : k ∈ l.map Prod.fst) :
    (updateAssoc l k v).map Prod.fst = l.map Prod.fst := by
  induction l with
  | nil => simp at h
  | cons hd tl ih =>
    obtain ⟨k', v'⟩ := hd
    by_cases hk : k' = k
    · subst hk
      simp [updateAssoc]
    · simp only [List.map_cons, List.mem_cons] at h
      rcases h with h | h
      · exact absurd h.symm hk
      · simp [updateAssoc, hk, ih h]

/-- Assigning to an absent key appends it at the end. -/
lemma updateAssoc_not_mem {α : Type} (l : List (ℕ × α)) (k : ℕ) (v : α)
    (h : k ∉ l.map Prod.fst) : updateAssoc l k v = l ++ [(k, v)] := by
  induction l with
  | nil => simp [updateAssoc]
  | cons hd tl ih =>
    obtain ⟨k', v'⟩ := hd
    simp only [List.map_cons, List.mem_cons, not_or] at h
    simp [updateAssoc, Ne.symm h.1, ih h.2]

/-- Keys of a key-filtered dict are the filtered keys. -/
lemma filter_keys {α : Type} (l : List (ℕ × α)) (k : ℕ) :
    (l.filter fun kv => kv.1 != k).map Prod.fst = (l.map Prod.fst).filter fun x => x != k := by
  induction l with
  | nil => simp
  | cons hd tl ih =>
    obtain ⟨k', v'⟩ := hd
    by_cases hk : k' = k
    · subst hk
      simp [List.filter, ih]
    · have hb : (k' != k) = true := by simp [hk]
      simp [List.filter, hb, ih]

/-- A removed key is absent from the remaining keys. -/
lemma not_mem_filter_keys {α : Type} (l : List (ℕ × α)) (k : ℕ) :
    k ∉ (l.filter fun kv => kv.1 != k).map Prod.fst := by
  rw [filter_keys]
  intro h
  have := List.of_mem_filter h
  simp at this

/-- C6: promoting a never-allocated frame id fails with `NotFound` (and,
since the operation returns no new state on error, the keyframe set is
untouched); promoting an allocated id succeeds, stores that frame's
current pose in the keyframe set, and promoting the same id again is
idempotent — the second promotion returns the very same state, holding
the latest stored pose (overwrite semantics). -/
theorem promote_semantics {α : Type} (s : SpatialState α) (fid : ℕ) :
    (s.all_poses.lookup fid = none → promote_to_keyframe fid s = .error Err.notFound) ∧
    (∀ p, s.all_poses.lookup fid = some p →
      ∃ s', promote_to_keyframe fid s = .ok s' ∧
        s'.keyframe_poses.lookup fid = some p ∧
        s'.all_poses = s.all_poses ∧ s'.frame_count = s.frame_count ∧
        promote_to_keyframe fid s' = .ok s') := by
  constructor
  · intro h
    simp [promote_to_keyframe, h]
  · intro p h
    refine ⟨{ s with keyframe_poses := updateAssoc s.keyframe_poses fid p }, ?_,
      lookup_updateAssoc_self _ _ _, rfl, rfl, ?_⟩
    · simp [promote_to_keyframe, h]
    · simp only [promote_to_keyframe, h]
      rw [updateAssoc_idem]

/-- C6, witness: on the store holding only frame 0 with pose 5,
promoting the unallocated id 7 fails with `NotFound`, promoting id 0
stores pose 5 in the keyframe set, and promoting id 0 again returns the
same state. -/
theorem promote_semantics_witness :
    promote_to_keyframe 7 (⟨[], [(0, 5)], 1⟩ : SpatialState ℕ) = .error Err.notFound ∧
    ∃ s', promote_to_keyframe 0 (⟨[], [(0, 5)], 1⟩ : SpatialState ℕ) = .ok s' ∧
      s'.keyframe_poses.lookup 0 = some 5 ∧ promote_to_keyframe 0 s' = .ok s' := by
  constructor
  · exact (promote_semantics (⟨[], [(0, 5)], 1⟩ : SpatialState ℕ) 7).1 rfl
  · obtain ⟨s', h1, h2, _, _, h5⟩ :=
      (promote_semantics (⟨[], [(0, 5)], 1⟩ : SpatialState ℕ) 0).2 5 rfl
    exact ⟨s', h1, h2, h5⟩

/-- The zero matrix fails validity (its bottom-right entry is 0). -/
lemma zeroM4_not_valid : ¬ transform_is_valid zeroM4 (1 / 1000) := by
  rintro ⟨-, -, -, -, -, -, h⟩
  simp only [isclose, zeroM4] at h
  rw [abs_le] at h
  norm_num at h

/-- C2, amended: the pose store performs no validity check at storage
time.  `add_frame_with_pose` and `add_frame` cannot fail — they store
the (arbitrary, possibly invalid) computed pose unconditionally — and
validity is enforced only when poses are consumed: both
`extract_displacement` and `compute_relative_pose` fail with
`InvalidTransform` on an invalid input. -/
theorem store_no_validation :
    (∀ (pose : M4) (s : SpatialState M4),
      add_frame_with_pose pose s =
        (s.frame_count,
         { s with all_poses := updateAssoc s.all_poses s.frame_count pose,
                  frame_count := s.frame_count + 1 }) ∧
      (add_frame_with_pose pose s).2.all_poses.lookup s.frame_count = some pose) ∧
    (∀ (σ : Type) (fk : σ → M4) (rs : σ) (rp : Option M4) (s : SpatialState M4),
      add_frame fk rs rp s =
        (s.frame_count,
         { s with all_poses :=
                    updateAssoc s.all_poses s.frame_count (mul4 (rp.getD id4) (fk rs)),
                  frame_count := s.frame_count + 1 }) ∧
      (add_frame fk rs rp s).2.all_poses.lookup s.frame_count =
        some (mul4 (rp.getD id4) (fk rs))) ∧
    (∀ t : M4, ¬ transform_is_valid t (1 / 1000) →
      extract_displacement t = .error Err.invalidTransform ∧
      ∀ b, compute_relative_pose t b = .error Err.invalidTransform) := by
  refine ⟨?_, ?_, ?_⟩
  · intro pose s
    exact ⟨rfl, lookup_updateAssoc_self _ _ _⟩
  · intro σ fk rs rp s
    exact ⟨rfl, lookup_updateAssoc_self _ _ _⟩
  · intro t ht
    constructor
    · unfold extract_displacement
      rw [if_neg ht]
    · intro b
      unfold compute_relative_pose
      rw [if_pos ht]

/-- C2, witness: storing the invalid zero matrix succeeds and the stored
pose is the zero matrix; consuming it via `extract_displacement` fails
with `InvalidTransform`. -/
theorem store_no_validation_witness :
    (add_frame_with_pose zeroM4 emptyState).2.all_poses.lookup 0 = some zeroM4 ∧
    extract_displacement zeroM4 = .error Err.invalidTransform := by
  refine ⟨?_, (store_no_validation.2.2 zeroM4 zeroM4_not_valid).1⟩
  have h := (store_no_validation.1 zeroM4 emptyState).2
  simpa [emptyState] using h

/-- C2, counterexample.  The zero matrix fails every validity invariant,
yet `add_frame_with_pose` stores it (no `InvalidTransform` is possible —
the operation is total), `promote_to_keyframe` copies it into the
keyframe set, and `add_frame` with an invalid base pose likewise returns
normally and stores the invalid computed world pose `0 @ I = 0`.  So it
is false that every pose held by the store is a valid rigid transform,
and false that `add_frame` propagates `InvalidTransform`. -/
theorem invalid_pose_stored_counterexample :
    ¬ transform_is_valid zeroM4 (1 / 1000) ∧
    (add_frame_with_pose zeroM4 emptyState).2.all_poses.lookup 0 = some zeroM4 ∧
    (∃ s2, promote_to_keyframe 0 (add_frame_with_pose zeroM4 emptyState).2 = .ok s2 ∧
      s2.keyframe_poses.lookup 0 = some zeroM4) ∧
    (add_frame (fun _ : Unit => id4) () (some zeroM4) emptyState).2.all_poses.lookup 0 =
      some (mul4 zeroM4 id4) ∧
    ¬ transform_is_valid (mul4 zeroM4 id4) (1 / 1000) := by
  have hmul : mul4 zeroM4 id4 = zeroM4 := by
    apply M4.ext <;> simp [mul4, zeroM4, id4]
  refine ⟨zeroM4_not_valid, ?_, ?_, ?_, ?_⟩
  · simp [add_frame_with_pose, emptyState, updateAssoc, List.lookup]
  · refine ⟨⟨[(0, zeroM4)], [(0, zeroM4)], 1⟩, ?_, ?_⟩
    · simp [promote_to_keyframe, add_frame_with_pose, emptyState, updateAssoc, List.lookup]
    · simp [List.lookup]
  · simp [add_frame, emptyState, updateAssoc, List.lookup]
  · rw [hmul]
    exact zeroM4_not_valid

/-- C10: re-promoting a frame id already present in the keyframe set
preserves the keyframe set's key insertion order exactly, hence the
id→color assignment (palette index = placement order mod 8) and the
1-indexed labels of `generate_map` are unchanged; removing a keyframe
and promoting it again appends its id at the end of the order. -/
theorem repromote_order_spec {α : Type} (s : SpatialState α) (fid : ℕ)
    (hmem : fid ∈ s.keyframe_poses.map Prod.fst) :
    (∀ s', promote_to_keyframe fid s = .ok s' →
      s'.keyframe_poses.map Prod.fst = s.keyframe_poses.map Prod.fst ∧
      map_colors s' = map_colors s ∧ map_labels s' = map_labels s) ∧
    (∀ s'', promote_to_keyframe fid (remove_keyframe fid s) = .ok s'' →
      s''.keyframe_poses.map Prod.fst =
        ((s.keyframe_poses.map Prod.fst).filter fun k => k != fid) ++ [fid]) := by
  constructor
  · intro s' hs'
    unfold promote_to_keyframe at hs'
    cases h : s.all_poses.lookup fid with
    | none => rw [h] at hs'; exact absurd hs' (by simp)
    | some p =>
      rw [h] at hs'
      injection hs' with hs'
      subst hs'
      have hkeys : (updateAssoc s.keyframe_poses fid p).map Prod.fst =
          s.keyframe_poses.map Prod.fst := updateAssoc_keys_of_mem _ _ _ hmem
      refine ⟨hkeys, ?_, ?_⟩
      · unfold map_colors
        rw [hkeys]
      · unfold map_labels
        rw [hkeys]
  · intro s'' hs''
    unfold promote_to_keyframe at hs''
    cases h : (remove_keyframe fid s).all_poses.lookup fid with
    | none => rw [h] at hs''; exact absurd hs'' (by simp)
    | some p =>
      rw [h] at hs''
      injection hs'' with hs''
      subst hs''
      show (updateAssoc (remove_keyframe fid s).keyframe_poses fid p).map Prod.fst = _
      simp only [remove_keyframe]
      rw [updateAssoc_not_mem _ _ _ (not_mem_filter_keys s.keyframe_poses fid)]
      simp [filter_keys]

/-- C10, witness: on a store with keyframe order `[0, 1]`, re-promoting
id 0 keeps the order `[0, 1]`, while removing id 0 and promoting it
again yields the order `[1, 0]`. -/
theorem repromote_order_spec_witness :
    (∃ s', promote_to_keyframe 0 (⟨[(0, 11), (1, 22)], [(0, 11), (1, 22)], 2⟩ :
        SpatialState ℕ) = .ok s' ∧ s'.keyframe_poses.map Prod.fst = [0, 1]) ∧
    (∃ s'', promote_to_keyframe 0 (remove_keyframe 0
        (⟨[(0, 11), (1, 22)], [(0, 11), (1, 22)], 2⟩ : SpatialState ℕ)) = .ok s'' ∧
      s''.keyframe_poses.map Prod.fst = [1, 0]) := by
  have h := repromote_order_spec (⟨[(0, 11), (1, 22)], [(0, 11), (1, 22)], 2⟩ :
    SpatialState ℕ) 0 (by decide)
  constructor
  · refine ⟨_, rfl, ?_⟩
    have := h.1 _ rfl
    exact this.1
  · refine ⟨_, rfl, ?_⟩
    have := h.2 _ rfl
    exact this.trans (by decide)

/-- A missing color makes the watermark loop fail with `NotFound` from
any start index, producing no output. -/
lemma watermark_go_error {Img Color : Type} (draw : ℕ → Color → Img → Img)
    (colors : List (ℕ × Color)) (kfs : List (ℕ × Img))
    (h : ∃ pr ∈ kfs, colors.lookup pr.1 = none) :
    ∀ idx, watermark_go draw colors idx kfs = .error Err.notFound := by
  induction kfs with
  | nil => simp at h
  | cons hd tl ih =>
    obtain ⟨fid, img⟩ := hd
    intro idx
    obtain ⟨pr, hpr, hnone⟩ := h
    rcases List.mem_cons.1 hpr with heq | hmem
    · subst heq
      simp only [watermark_go, hnone]
    · cases hc : colors.lookup fid with
      | none => simp only [watermark_go, hc]
      | some c =>
        simp only [watermark_go, hc]
        rw [ih ⟨pr, hmem, hnone⟩ (idx + 1)]

/-- When every id has a color, the watermark loop returns one image per
input pair. -/
lemma watermark_go_ok {Img Color : Type} (draw : ℕ → Color → Img → Img)
    (colors : List (ℕ × Color)) (kfs : List (ℕ × Img))
    (h : ∀ pr ∈ kfs, (colors.lookup pr.1).isSome) :
    ∀ idx, ∃ out, watermark_go draw colors idx kfs = .ok out ∧ out.length = kfs.length := by
  induction kfs with
  | nil => intro idx; exact ⟨[], rfl, rfl⟩
  | cons hd tl ih =>
    obtain ⟨fid, img⟩ := hd
    intro idx
    have hhd := h (fid, img) (List.mem_cons_self _ _)
    cases hc : colors.lookup fid with
    | none => rw [hc] at hhd; simp at hhd
    | some c =>
      obtain ⟨out, hout, hlen⟩ := ih (fun pr hpr => h pr (List.mem_cons_of_mem _ hpr)) (idx + 1)
      refine ⟨draw idx c img :: out, ?_, by simp [hlen]⟩
      simp only [watermark_go, hc, hout]

/-- C9: `watermark` fails with `NotFound` as soon as some id in the
input list has no entry in the color map — and then produces no output
images at all — and when every id has a color it returns one (new) image
per input pair; the embedding is pure, so the caller's images are never
mutated (the code draws on `keyframe.copy()`). -/
theorem watermark_spec {Img Color : Type} (draw : ℕ → Color → Img → Img)
    (kfs : List (ℕ × Img)) (colors : List (ℕ × Color)) :
    ((∃ pr ∈ kfs, colors.lookup pr.1 = none) →
      watermark_keyframes draw kfs colors = .error Err.notFound) ∧
    ((∀ pr ∈ kfs, (colors.lookup pr.1).isSome) →
      ∃ out, watermark_keyframes draw kfs colors = .ok out ∧ out.length = kfs.length) := by
  constructor
  · intro h
    exact watermark_go_error draw colors kfs h 0
  · intro h
    exact watermark_go_ok draw colors kfs h 0

/-- C9, witness: with two keyframes whose ids both have colors the
watermarker returns two images; with an id (2) missing from the color
map it fails with `NotFound`. -/
theorem watermark_spec_witness :
    (∃ out, watermark_keyframes (fun i c img => img + i + c) [(0, 10), (1, 20)]
      [(0, 7), (1, 9)] = .ok out ∧ out.length = 2) ∧
    watermark_keyframes (fun i c img => img + i + c) [(0, 10), (2, 20)] [(0, 7)] =
      .error Err.notFound := by
  constructor
  · exact (watermark_spec (fun i c img => img + i + c) [(0, 10), (1, 20)]
      [(0, 7), (1, 9)]).2 (by decide)
  · exact (watermark_spec (fun i c img => img + i + c) [(0, 10), (2, 20)] [(0, 7)]).1
      (by decide)

/-- C1: the outlier policy of the layout engine, for every non-empty
position set.  With fewer than 5 keyframes, rejection is skipped — no
keyframe is an outlier regardless of the configured strength and the
scale comes from the maximum distance as-is.  With 5 or more keyframes
and σ below `1e-6`, the maximum distance is used directly.  Otherwise
exactly the keyframes with `dᵢ > μ + k·σ` (`layout_outliers`) are the
outliers and the scale is derived from the maximum distance among the
inliers (`layout_inlier_dists`; the code falls back to the overall
maximum in the unreachable case that every keyframe were an outlier). -/
theorem outlier_policy (cfg : MapConfig) (ps : List (ℕ × ℝ × ℝ)) (hne : ps ≠ []) :
    (ps.length < 5 →
      map_layout_stats cfg ps =
        (ps, compute_scale cfg (pymax ((distancesOf ps).map Prod.snd)), [])) ∧
    (5 ≤ ps.length → npstd ((distancesOf ps).map Prod.snd) < 1 / 1000000 →
      map_layout_stats cfg ps =
        (ps, compute_scale cfg (pymax ((distancesOf ps).map Prod.snd)), [])) ∧
    (5 ≤ ps.length → ¬ npstd ((distancesOf ps).map Prod.snd) < 1 / 1000000 →
      map_layout_stats cfg ps =
        (ps,
         compute_scale cfg
           (if layout_inlier_dists cfg ps = []
            then pymax ((distancesOf ps).map Prod.snd)
            else pymax (layout_inlier_dists cfg ps)),
         layout_outliers cfg ps)) := by
  have hlen : ((distancesOf ps).map Prod.snd).length = ps.length := by
    simp [distancesOf]
  have hdv : (distancesOf ps).map Prod.snd ≠ [] := by
    simp [distancesOf]
    exact hne
  refine ⟨?_, ?_, ?_⟩
  · intro h5
    rw [map_layout_stats, if_neg hne]
    simp only [hlen]
    rw [if_pos h5, if_neg hdv]
  · intro h5 hstd
    rw [map_layout_stats, if_neg hne]
    simp only [hlen]
    rw [if_neg (by omega), if_pos hstd]
  · intro h5 hstd
    rw [map_layout_stats, if_neg hne]
    simp only [hlen]
    rw [if_neg (by omega), if_neg hstd]

/-- The example distances are `{1,1,1,1,1,100}`. -/
lemma exPositions6_dists :
    distancesOf exPositions6 = [(0, 1), (1, 1), (2, 1), (3, 1), (4, 1), (5, 100)] := by
  have h100 : Real.sqrt 10000 = 100 := by
    rw [show (10000:ℝ) = 100 ^ 2 by norm_num, Real.sqrt_sq (by norm_num : (0:ℝ) ≤ 100)]
  unfold distancesOf exPositions6
  norm_num [h100]

lemma exPositions6_dvals :
    (distancesOf exPositions6).map Prod.snd = [1, 1, 1, 1, 1, 100] := by
  rw [exPositions6_dists]
  rfl

/-- Mean of the example distances: 17.5. -/
lemma exMean : npmean [(1:ℝ), 1, 1, 1, 1, 100] = 35 / 2 := by
  unfold npmean
  norm_num

/-- Population standard deviation of the example distances:
`sqrt(1361.25)` ≈ 36.9. -/
lemma exStd : npstd [(1:ℝ), 1, 1, 1, 1, 100] = Real.sqrt (5445 / 4) := by
  unfold npstd
  rw [exMean]
  congr 1
  norm_num

/-- The example deviation is at least 1 (far above the `1e-6` gate). -/
lemma exStd_ge_one : (1:ℝ) ≤ Real.sqrt (5445 / 4) := by
  rw [show (1:ℝ) = Real.sqrt 1 by simp]
  exact Real.sqrt_le_sqrt (by norm_num)

/-- The example deviation is below 41.25, so the threshold
`17.5 + 2·σ` is below 100. -/
lemma exStd_lt : Real.sqrt (5445 / 4) < 165 / 4 := by
  calc Real.sqrt (5445 / 4) < Real.sqrt ((165 / 4) ^ 2) :=
        Real.sqrt_lt_sqrt (by norm_num) (by norm_num)
    _ = 165 / 4 := Real.sqrt_sq (by norm_num)

/-- The example outlier threshold is `μ + k·σ` with `k = 2`. -/
lemma exThreshold :
    layout_threshold DEFAULT_MAP_CONFIG exPositions6 = 35 / 2 + 2 * Real.sqrt (5445 / 4) := by
  unfold layout_threshold
  rw [exPositions6_dvals, exMean, exStd]
  norm_num [DEFAULT_MAP_CONFIG]

/-- Exactly the 100 m keyframe (id 5) is an outlier. -/
lemma exOutliers : layout_outliers DEFAULT_MAP_CONFIG exPositions6 = [5] := by
  have h1 : decide (layout_threshold DEFAULT_MAP_CONFIG exPositions6 < (1:ℝ)) = false := by
    rw [decide_eq_false_iff_not, exThreshold]
    have := Real.sqrt_nonneg (5445 / 4 : ℝ)
    intro hc
    linarith
  have h2 : decide (layout_threshold DEFAULT_MAP_CONFIG exPositions6 < (100:ℝ)) = true := by
    rw [decide_eq_true_eq, exThreshold]
    have := exStd_lt
    linarith
  unfold layout_outliers
  rw [exPositions6_dists]
  simp [List.filter, h1, h2]

/-- The inlier distances are the five 1 m distances. -/
lemma exInliers : layout_inlier_dists DEFAULT_MAP_CONFIG exPositions6 = [1, 1, 1, 1, 1] := by
  unfold layout_inlier_dists
  rw [exPositions6_dists, exOutliers]
  simp [List.filter]

/-- C1, witness: six keyframes at distances `{1,1,1,1,1,100}` with the
default configuration (outlier strength `k = 2`): the 100 m keyframe
(id 5) is classified as an outlier and the scale `242 px/m` is derived
from the 1 m inlier maximum, not from 100 m. -/
theorem outlier_policy_witness :
    map_layout_stats DEFAULT_MAP_CONFIG exPositions6 = (exPositions6, 242, [5]) := by
  have hne : exPositions6 ≠ [] := by
    unfold exPositions6
    simp
  have hlen : 5 ≤ exPositions6.length := by
    unfold exPositions6
    simp
  have hstdge : ¬ npstd ((distancesOf exPositions6).map Prod.snd) < 1 / 1000000 := by
    rw [exPositions6_dvals, exStd]
    have := exStd_ge_one
    intro hc
    linarith
  have h := (outlier_policy DEFAULT_MAP_CONFIG exPositions6 hne).2.2 hlen hstdge
  rw [h, exInliers, exOutliers, exPositions6_dvals]
  rw [if_neg (by simp : ([(1:ℝ), 1, 1, 1, 1] : List ℝ) ≠ [])]
  have hpm : pymax [(1:ℝ), 1, 1, 1, 1] = 1 := by
    unfold pymax
    simp
  rw [hpm]
  unfold compute_scale DEFAULT_MAP_CONFIG
  norm_num

/-- A successful `find?` splits the list at the first hit. -/
lemma find?_decomp {β : Type} (p : β → Bool) (l : List β) (a : β) (h : l.find? p = some a) :
    ∃ l1 l2, l = l1 ++ a :: l2 ∧ p a = true ∧ ∀ b ∈ l1, p b = false := by
  induction l with
  | nil => simp at h
  | cons hd tl ih =>
    by_cases hp : p hd = true
    · rw [List.find?_cons_of_pos _ hp] at h
      injection h with h
      subst h
      exact ⟨[], tl, rfl, hp, by simp⟩
    · rw [List.find?_cons_of_neg _ hp] at h
      obtain ⟨l1, l2, heq, hpa, hall⟩ := ih h
      refine ⟨hd :: l1, l2, by rw [heq, List.cons_append], hpa, ?_⟩
      intro b hb
      rcases List.mem_cons.1 hb with rfl | hb
      · exact Bool.not_eq_true _ ▸ (by simpa using hp)
      · exact hall b hb

/-- C3: collision resolution.  A collision is `distance(centers) <
sum(radii)` against the previously placed circles (`has_collision`); a
collision-free candidate is returned unchanged; a colliding candidate is
replaced by the first collision-free sample of the spiral search
(`spiral_points`: rings `1..9` — `range(1, 10)`, i.e. fewer than 10
rings — of radius `ring × marker_radius` with `max(8, ring·8)` evenly
spaced angles each, in order), every earlier sample being in collision;
and when every spiral sample collides the result is the original
candidate offset by `3 × radius` to the right, without re-checking. -/
theorem resolve_overlap_spec (px py radius : ℤ) (placed : List (ℤ × ℤ × ℤ)) :
    (¬ has_collision px py placed radius → resolve_overlap px py placed radius = (px, py)) ∧
    (has_collision px py placed radius → ∀ q,
      (spiral_points px py radius).find?
          (fun c => decide (¬ has_collision c.1 c.2 placed radius)) = some q →
      resolve_overlap px py placed radius = q ∧
      ¬ has_collision q.1 q.2 placed radius ∧
      ∃ l1 l2, spiral_points px py radius = l1 ++ q :: l2 ∧
        ∀ c ∈ l1, has_collision c.1 c.2 placed radius) ∧
    (has_collision px py placed radius →
      (∀ c ∈ spiral_points px py radius, has_collision c.1 c.2 placed radius) →
      resolve_overlap px py placed radius = (px + radius * 3, py)) := by
  refine ⟨?_, ?_, ?_⟩
  · intro h
    unfold resolve_overlap
    rw [if_pos h]
  · intro h q hq
    unfold resolve_overlap
    rw [if_neg (not_not_intro h), hq]
    refine ⟨rfl, ?_, ?_⟩
    · have := List.find?_some hq
      simpa using this
    · obtain ⟨l1, l2, heq, _, hall⟩ := find?_decomp _ _ _ hq
      refine ⟨l1, l2, heq, ?_⟩
      intro c hc
      have := hall c hc
      simpa using this
  · intro h hall
    unfold resolve_overlap
    rw [if_neg (not_not_intro h),
      List.find?_eq_none.2 (fun c hc => by simpa using hall c hc)]

/-- Truncation of an integer-valued real is exact. -/
lemma pytrunc_intCast (n : ℤ) : pytrunc ((n : ℤ) : ℝ) = n := by
  unfold pytrunc
  split_ifs <;> simp

/-- `find?` returns the head when the head already satisfies the
predicate. -/
lemma find?_of_head? {β : Type} (p : β → Bool) (l : List β) (a : β)
    (h : l.head? = some a) (hp : p a = true) : l.find? p = some a := by
  cases l with
  | nil => simp at h
  | cons hd tl =>
    rw [List.head?_cons] at h
    injection h with h
    subst h
    exact List.find?_cons_of_pos _ hp

/-- The candidate `(256,256)` with radius 16 touches the placed circle
`(240,256)` of radius 2 (distance 16 < 18): a collision. -/
lemma exCandidateCollides : has_collision 256 256 [(240, 256, 2)] 16 := by
  refine ⟨(240, 256, 2), by simp, ?_⟩
  norm_num
  rw [show (256:ℝ) = 16 ^ 2 by norm_num, Real.sqrt_sq (by norm_num : (0:ℝ) ≤ 16)]
  norm_num

/-- The first spiral sample `(272,256)` is collision-free
(distance 32 ≥ 18). -/
lemma exSampleFree : ¬ has_collision 272 256 [(240, 256, 2)] 16 := by
  rintro ⟨c, hc, hlt⟩
  simp only [List.mem_singleton] at hc
  subst hc
  norm_num at hlt
  rw [show (1024:ℝ) = 32 ^ 2 by norm_num,
    Real.sqrt_sq (by norm_num : (0:ℝ) ≤ 32)] at hlt
  norm_num at hlt

/-- The first spiral sample: ring 1, angle 0, offset `(16, 0)`. -/
lemma exSpiralHead : (spiral_points 256 256 16).head? = some (272, 256) := by
  unfold spiral_points
  rw [show List.range' 1 9 = 1 :: List.range' 2 8 by rfl, List.flatMap_cons,
    show List.range (max 8 (1 * 8)) = 0 :: [1, 2, 3, 4, 5, 6, 7] by rfl,
    List.map_cons, List.cons_append, List.head?_cons]
  congr 1
  norm_num [Real.cos_zero, Real.sin_zero, pytrunc]

/-- C3, witness: a colliding candidate `(256,256)` (against a circle at
`(240,256)`) is moved to the first collision-free spiral sample
`(272,256)` on ring 1 at angle 0. -/
theorem resolve_overlap_spec_witness :
    resolve_overlap 256 256 [(240, 256, 2)] 16 = (272, 256) := by
  have hfind : (spiral_points 256 256 16).find?
      (fun c => decide (¬ has_collision c.1 c.2 [(240, 256, 2)] 16)) = some (272, 256) :=
    find?_of_head? _ _ _ exSpiralHead (by simpa using exSampleFree)
  exact ((resolve_overlap_spec 256 256 16 [(240, 256, 2)]).2.1 exCandidateCollides
    (272, 256) hfind).1

/-- A clipped value lies inside `[lo, hi]` whenever `lo ≤ hi`. -/
lemma clip_bounds (v lo hi : ℤ) (h : lo ≤ hi) : lo ≤ clip v lo hi ∧ clip v lo hi ≤ hi := by
  unfold clip
  omega

/-- Every final marker center produced by the placement loop is a
clipped value, hence lies inside the clamp interval. -/
lemma place_keyframes_bounds (cfg : MapConfig) (avoid : Bool) (scale : ℝ)
    (h : cfg.border_size + cfg.keyframe_radius ≤
      cfg.image_size - cfg.border_size - cfg.keyframe_radius) :
    ∀ (ps : List (ℕ × ℝ × ℝ)) (placed : List (ℤ × ℤ × ℤ)),
      ∀ e ∈ place_keyframes cfg avoid scale ps placed,
        cfg.border_size + cfg.keyframe_radius ≤ e.2.1 ∧
        e.2.1 ≤ cfg.image_size - cfg.border_size - cfg.keyframe_radius ∧
        cfg.border_size + cfg.keyframe_radius ≤ e.2.2 ∧
        e.2.2 ≤ cfg.image_size - cfg.border_size - cfg.keyframe_radius := by
  intro ps
  induction ps with
  | nil => intro placed e he; simp [place_keyframes] at he
  | cons hd tl ih =>
    obtain ⟨fid, x, y⟩ := hd
    intro placed e he
    simp only [place_keyframes] at he
    rcases List.mem_cons.1 he with rfl | hmem
    · cases avoid <;> simp only [Bool.false_eq_true, if_true, if_false, reduceIte] <;>
        exact ⟨(clip_bounds _ _ _ h).1, (clip_bounds _ _ _ h).2,
          (clip_bounds _ _ _ h).1, (clip_bounds _ _ _ h).2⟩
    · exact ih _ e hmem

/-- C4, amended.  First conjunct: for every keyframe the placement loop
computes the unresolved pixel position as `center + trunc(coord·scale)`
(`pytrunc`: Python `int` truncation toward zero, not rounding to
nearest), clamps both coordinates into
`[border+radius, size−border−radius]`, resolves collisions against the
previously placed circles, and clamps again after resolution.  Second
conjunct: consequently every marker center placed by `generate_map` lies
within those bounds (whenever the interval is non-degenerate). -/
theorem placement_clamp_spec (cfg : MapConfig) (scale : ℝ) :
    (∀ (fid : ℕ) (x y : ℝ) (rest : List (ℕ × ℝ × ℝ)) (placed : List (ℤ × ℤ × ℤ)),
      place_keyframes cfg true scale ((fid, x, y) :: rest) placed =
        (let center := cfg.image_size / 2
         let lo := cfg.border_size + cfg.keyframe_radius
         let hi := cfg.image_size - cfg.border_size - cfg.keyframe_radius
         let px0 := clip (center + pytrunc (x * scale)) lo hi
         let py0 := clip (center + pytrunc (y * scale)) lo hi
         let q := (clip (resolve_overlap px0 py0 placed cfg.keyframe_radius).1 lo hi,
                   clip (resolve_overlap px0 py0 placed cfg.keyframe_radius).2 lo hi)
         (fid, q.1, q.2) ::
           place_keyframes cfg true scale rest
             (placed ++ [(q.1, q.2, cfg.keyframe_radius)]))) ∧
    (∀ (avoid : Bool) (s : SpatialState M4) (placements : List (ℕ × ℤ × ℤ))
        (colors : List (ℕ × (ℤ × ℤ × ℤ))),
      cfg.border_size + cfg.keyframe_radius ≤
          cfg.image_size - cfg.border_size - cfg.keyframe_radius →
      generate_map_placements cfg avoid s = .ok (placements, colors) →
      ∀ e ∈ placements,
        cfg.border_size + cfg.keyframe_radius ≤ e.2.1 ∧
        e.2.1 ≤ cfg.image_size - cfg.border_size - cfg.keyframe_radius ∧
        cfg.border_size + cfg.keyframe_radius ≤ e.2.2 ∧
        e.2.2 ≤ cfg.image_size - cfg.border_size - cfg.keyframe_radius) := by
  constructor
  · intro fid x y rest placed
    simp [place_keyframes]
  · intro avoid s placements colors h hgen e he
    simp only [generate_map_placements] at hgen
    cases hl : compute_map_layout cfg (get_current_pose id4 s) s.keyframe_poses with
    | error err =>
      rw [hl] at hgen
      simp at hgen
    | ok res =>
      obtain ⟨pos, sc, outl⟩ := res
      rw [hl] at hgen
      simp only [Except.ok.injEq, Prod.mk.injEq] at hgen
      obtain ⟨h1, -⟩ := hgen
      subst h1
      exact place_keyframes_bounds cfg avoid sc h pos _ e he

/-- The identity transform is valid. -/
lemma id4_valid : transform_is_valid id4 (1 / 1000) := by
  unfold transform_is_valid rtr_check rrt_check det_check last_row_check isclose det3 id4
  norm_num

/-- The example translation-(3,4,0) transform is valid. -/
lemma exT34_valid : transform_is_valid exT34 (1 / 1000) := by
  unfold transform_is_valid rtr_check rrt_check det_check last_row_check isclose det3 exT34
  norm_num

/-- The current pose of the example store is the identity (frame 1 has
the largest id). -/
lemma exCur : get_current_pose id4 exState34 = id4 := by
  simp [get_current_pose, exState34, List.lookup]

/-- Relative pose of the example keyframe to the identity. -/
lemma exRel : compute_relative_pose id4 exT34 = .ok exT34 := by
  have hinv : inv4 id4 = id4 := by
    apply M4.ext <;> simp [inv4, id4]
  have hmul : mul4 id4 exT34 = exT34 := by
    apply M4.ext <;> simp [mul4, id4, exT34]
  unfold compute_relative_pose transform_inverse
  rw [if_neg (not_not_intro id4_valid), if_neg (not_not_intro exT34_valid), if_pos id4_valid]
  show Except.ok (mul4 (inv4 id4) exT34) = _
  rw [hinv, hmul]

/-- Displacement of the example keyframe: `(3, 4, 0)`. -/
lemma exDisp : extract_displacement exT34 = .ok (3, 4, 0) := by
  unfold extract_displacement
  rw [if_pos exT34_valid]
  simp [exT34]

/-- Layout positions of the example store: keyframe 0 at `(3, 4)`. -/
lemma exPos : positionsOf id4 [(0, exT34)] = .ok [(0, 3, 4)] := by
  simp only [positionsOf, exRel, exDisp]

/-- Layout statistics of the example: a single keyframe at distance 5
(below the 5-sample outlier gate), scale `242/5` px/m. -/
lemma exStats :
    map_layout_stats DEFAULT_MAP_CONFIG [(0, (3:ℝ), (4:ℝ))] = ([(0, 3, 4)], 242 / 5, []) := by
  have hd : distancesOf [((0:ℕ), (3:ℝ), (4:ℝ))] = [(0, 5)] := by
    unfold distancesOf
    norm_num [show Real.sqrt 25 = 5 from by
      rw [show (25:ℝ) = 5 ^ 2 by norm_num, Real.sqrt_sq (by norm_num : (0:ℝ) ≤ 5)]]
  unfold map_layout_stats
  rw [if_neg (by simp : ¬ ([((0:ℕ), (3:ℝ), (4:ℝ))] = [])), hd]
  simp only [List.map_cons, List.map_nil, List.length_cons, List.length_nil]
  norm_num [compute_scale, pymax, DEFAULT_MAP_CONFIG]

/-- Full layout of the example store. -/
lemma exLayout :
    compute_map_layout DEFAULT_MAP_CONFIG id4 [(0, exT34)] = .ok ([(0, 3, 4)], 242 / 5, []) := by
  unfold compute_map_layout
  rw [exPos]
  show Except.ok (map_layout_stats DEFAULT_MAP_CONFIG [(0, 3, 4)]) = _
  rw [exStats]

/-- `int(3 · 48.4) = int(145.2) = 145`. -/
lemma exTruncX : pytrunc ((3:ℝ) * (242 / 5)) = 145 := by
  unfold pytrunc
  rw [if_pos (by norm_num : (0:ℝ) ≤ 3 * (242 / 5))]
  norm_num

/-- `int(4 · 48.4) = int(193.6) = 193` (rounding would give 194). -/
lemma exTruncY : pytrunc ((4:ℝ) * (242 / 5)) = 193 := by
  unfold pytrunc
  rw [if_pos (by norm_num : (0:ℝ) ≤ 4 * (242 / 5))]
  norm_num

/-- The example marker at `(401, 449)` does not collide with the robot
marker at the canvas center (distance ≈ 241 ≥ 34). -/
lemma exNoCollision : ¬ has_collision 401 449 [(256, 256, 18)] 16 := by
  rintro ⟨c, hc, hlt⟩
  simp only [List.mem_singleton] at hc
  subst hc
  norm_num at hlt
  have h34 : (34:ℝ) ≤ Real.sqrt 58274 := by
    have : (34:ℝ) = Real.sqrt 1156 := by
      rw [show (1156:ℝ) = 34 ^ 2 by norm_num, Real.sqrt_sq (by norm_num : (0:ℝ) ≤ 34)]
    rw [this]
    exact Real.sqrt_le_sqrt (by norm_num)
  linarith

/-- Overlap resolution leaves the example marker unchanged. -/
lemma exResolve : resolve_overlap 401 449 [(256, 256, 18)] 16 = (401, 449) := by
  unfold resolve_overlap
  rw [if_pos exNoCollision]

/-- The placement loop puts the example keyframe at `(401, 449)`. -/
lemma exPlace :
    place_keyframes DEFAULT_MAP_CONFIG true (242 / 5) [(0, 3, 4)] [(256, 256, 18)] =
      [(0, 401, 449)] := by
  simp only [place_keyframes, DEFAULT_MAP_CONFIG]
  rw [exTruncX, exTruncY]
  norm_num
  rw [show clip 401 20 492 = 401 from by unfold clip; omega,
    show clip 449 20 492 = 449 from by unfold clip; omega, exResolve]
  constructor
  · show clip 401 20 492 = 401
    unfold clip
    omega
  · show clip 449 20 492 = 449
    unfold clip
    omega

/-- Full placement output of `generate_map` on the example store. -/
lemma exGen :
    generate_map_placements DEFAULT_MAP_CONFIG true exState34 =
      .ok ([(0, 401, 449)], [(0, get_keyframe_color 0)]) := by
  simp only [generate_map_placements]
  rw [show exState34.keyframe_poses = [(0, exT34)] from rfl, exCur, exLayout]
  simp only [Except.ok.injEq, Prod.mk.injEq]
  constructor
  · rw [show (DEFAULT_MAP_CONFIG.image_size / 2 : ℤ) = 256 from by
        norm_num [DEFAULT_MAP_CONFIG],
      show (DEFAULT_MAP_CONFIG.robot_radius : ℤ) = 18 from by norm_num [DEFAULT_MAP_CONFIG]]
    exact exPlace
  · simp [map_colors, map_colors_go, exState34]

/-- C4, counterexample.  On the example store (one keyframe at
displacement `(3, 4)`, scale `242/5 = 48.4` px/m) the code places the
marker at `py = 256 + int(193.6) = 449`, which is the truncation
formula; the claim's formula `py = center + round(y·scale)` would give
`256 + 194 = 450 ≠ 449`, so the claim's rounding formula is false on the
code. -/
theorem pixel_round_counterexample :
    generate_map_placements DEFAULT_MAP_CONFIG true exState34 =
      .ok ([(0, 401, 449)], [(0, get_keyframe_color 0)]) ∧
    (449 : ℤ) = clip (DEFAULT_MAP_CONFIG.image_size / 2 + pytrunc ((4:ℝ) * (242 / 5)))
      (DEFAULT_MAP_CONFIG.border_size + DEFAULT_MAP_CONFIG.keyframe_radius)
      (DEFAULT_MAP_CONFIG.image_size - DEFAULT_MAP_CONFIG.border_size -
        DEFAULT_MAP_CONFIG.keyframe_radius) ∧
    clip (DEFAULT_MAP_CONFIG.image_size / 2 + round ((4:ℝ) * (242 / 5)))
      (DEFAULT_MAP_CONFIG.border_size + DEFAULT_MAP_CONFIG.keyframe_radius)
      (DEFAULT_MAP_CONFIG.image_size - DEFAULT_MAP_CONFIG.border_size -
        DEFAULT_MAP_CONFIG.keyframe_radius) ≠ 449 := by
  refine ⟨exGen, ?_, ?_⟩
  · rw [exTruncY]
    norm_num [DEFAULT_MAP_CONFIG]
    unfold clip
    omega
  · rw [show round ((4:ℝ) * (242 / 5)) = 194 from by norm_num [round_eq]]
    norm_num [DEFAULT_MAP_CONFIG]
    unfold clip
    omega

/-- C4, witness: the example marker `(401, 449)` placed by
`generate_map` lies within the clamp bounds `[20, 492]` of the default
configuration. -/
theorem placement_clamp_spec_witness :
    DEFAULT_MAP_CONFIG.border_size + DEFAULT_MAP_CONFIG.keyframe_radius ≤ (401:ℤ) ∧
    (401:ℤ) ≤ DEFAULT_MAP_CONFIG.image_size - DEFAULT_MAP_CONFIG.border_size -
      DEFAULT_MAP_CONFIG.keyframe_radius ∧
    DEFAULT_MAP_CONFIG.border_size + DEFAULT_MAP_CONFIG.keyframe_radius ≤ (449:ℤ) ∧
    (449:ℤ) ≤ DEFAULT_MAP_CONFIG.image_size - DEFAULT_MAP_CONFIG.border_size -
      DEFAULT_MAP_CONFIG.keyframe_radius := by
  exact (placement_clamp_spec DEFAULT_MAP_CONFIG (242 / 5)).2 true exState34
    [(0, 401, 449)] [(0, get_keyframe_color 0)] (by norm_num [DEFAULT_MAP_CONFIG]) exGen
    (0, 401, 449) (by simp)
